import Mathlib

/-!
Verification of the crash-tool gdb target adapter (crash_target.c, two
build variants: a per-task variant keeping a single gdb thread, and a
per-CPU variant keeping one gdb thread per CPU).

The C code is shallowly embedded: the static `prev_task` variable of the
per-task `gdb_change_thread_context` becomes explicit state, external
collaborators (crash primitives, gdb regcache and thread list) become
oracle parameters or explicit fields, and the observable side effects
(calls to `registers_changed`, `reinit_frame_cache`,
`target_fetch_registers`, `add_thread_silent`) become counters.
-/

/- ## Per-task variant: context identity tracker (crash_target.c) -/

/-- State surrounding the per-task `gdb_change_thread_context`:
the static `prev_task` variable (initialized to 0 in the C source) plus
counters of the observable invalidation side effects
(`registers_changed` and `reinit_frame_cache` calls). -/
structure TaskContextState where
  prev_task : Nat
  regcacheInvalidations : Nat
  frameInvalidations : Nat
deriving DecidableEq, Repr

/-- Initial state: `static ulong prev_task = 0;` and no side effects yet. -/
def initialTaskContextState : TaskContextState :=
  { prev_task := 0, regcacheInvalidations := 0, frameInvalidations := 0 }

/-- Embedding of the per-task `gdb_change_thread_context(ulong task)`
(crash_target.c lines 144-160): if `task == prev_task` return TRUE with
no action; otherwise store `task` into `prev_task`, call
`registers_changed()` and `reinit_frame_cache()`, and return TRUE. -/
def gdb_change_thread_context (task : Nat) (s : TaskContextState) :
    Bool × TaskContextState :=
  if task = s.prev_task then
    (true, s)
  else
    (true, { prev_task := task,
             regcacheInvalidations := s.regcacheInvalidations + 1,
             frameInvalidations := s.frameInvalidations + 1 })

/-- Run a sequence of context-change notifications through the per-task
tracker, returning the final state. -/
def runNotifications (tasks : List Nat) (s : TaskContextState) :
    TaskContextState :=
  tasks.foldl (fun st t => (gdb_change_thread_context t st).2) s

/- ## Per-CPU variant: context identity tracker (unnamed variant file) -/

/-- Debugger-side state seen by the per-CPU `gdb_change_thread_context`:
the gdb thread list (each record identified by its cpu slot, the `tid`
field of `ptid_t(CRASH_INFERIOR_PID, 0, cpu)`), the currently selected
thread, and counters of `add_thread_silent`, `target_fetch_registers`
and `reinit_frame_cache` calls. -/
structure CpuContextState where
  threads : List Nat
  activeThread : Option Nat
  addCalls : Nat
  fetchCalls : Nat
  frameInvalidations : Nat
deriving DecidableEq, Repr

/-- Embedding of the per-CPU `crash_target_init`: `crash_get_nr_cpus()`
thread records are created eagerly (cpu slots 0..n-1), the thread for
CPU 0 becomes active, one full register fetch occurs and the frame
cache is initialized. -/
def crash_target_init_percpu (nr_cpus : Nat) : CpuContextState :=
  { threads := List.range nr_cpus,
    activeThread := if nr_cpus = 0 then none else some 0,
    addCalls := nr_cpus,
    fetchCalls := 1,
    frameInvalidations := 1 }

/-- Embedding of the per-CPU `gdb_change_thread_context(ulong task)`
(variant file lines 142-171). `crash_set_thread` resolves the task to a
CPU index (negative on failure) and `add_thread_ok cpu` tells whether
`add_thread_silent` succeeds for that cpu slot. Control flow of the C
source: negative cpu rejects with FALSE; otherwise look up the thread
record; if absent make exactly one `add_thread_silent` attempt and retry
the lookup once; if still absent return FALSE; otherwise fetch all
registers into the record, switch to it, reinit the frame cache and
return TRUE. -/
def gdb_change_thread_context_percpu (crash_set_thread : Nat → Int)
    (add_thread_ok : Nat → Bool) (task : Nat) (s : CpuContextState) :
    Bool × CpuContextState :=
  let cpu := crash_set_thread task
  if cpu < 0 then
    (false, s)
  else if cpu.toNat ∈ s.threads then
    (true, { s with activeThread := some cpu.toNat,
                    fetchCalls := s.fetchCalls + 1,
                    frameInvalidations := s.frameInvalidations + 1 })
  else if add_thread_ok cpu.toNat then
    (true, { s with threads := s.threads ++ [cpu.toNat],
                    addCalls := s.addCalls + 1,
                    activeThread := some cpu.toNat,
                    fetchCalls := s.fetchCalls + 1,
                    frameInvalidations := s.frameInvalidations + 1 })
  else
    (false, { s with addCalls := s.addCalls + 1 })

/- ## Register projector (crash_target::fetch_registers, both variants) -/

/-- The slice of gdb's architecture description used by
`fetch_registers`: `gdbarch_num_regs`, `gdbarch_register_name` and
`register_size`. -/
structure Gdbarch where
  numRegs : Nat
  regName : Nat → String
  regSize : Nat → Nat

/-- One register-cache entry as written by `regcache->raw_supply`:
either present with concrete bytes (`raw_supply (r, regval)`) or
explicitly unavailable (`raw_supply (r, NULL)`). -/
inductive RegEntry where
  | present (bytes : List Nat)
  | unavailable
deriving DecidableEq, Repr

/-- A register cache: the entry currently held for each register index. -/
def RegCache : Type := Nat → RegEntry

/-- In-place update of one register-cache entry. -/
def setReg (cache : RegCache) (r : Nat) (v : RegEntry) : RegCache :=
  fun i => if i = r then v else cache i

/-- Outcome of a fetch operation: ran to completion, or aborted by
`error (...)` because a register's declared width exceeded the 16-byte
scratch buffer. -/
inductive FetchOutcome where
  | completed
  | configError
deriving DecidableEq, Repr

/-- The cache entry the loop body supplies for register `r`: the bytes
returned by the per-register read primitive when it reports success,
or the explicit unavailable marker when it reports failure. -/
def suppliedEntry (readReg : Nat → String → Nat → Option (List Nat))
    (arch : Gdbarch) (r : Nat) : RegEntry :=
  match readReg r (arch.regName r) (arch.regSize r) with
  | some bytes => RegEntry.present bytes
  | none => RegEntry.unavailable

/-- The shared loop body of both variants' `fetch_registers`, iterated
over a list of register indices: for each register, if
`regsize > sizeof (regval)` (16 bytes) abort with the configuration
error, mutating nothing further; otherwise supply the register from the
read primitive and continue. Returns the outcome together with the
cache as mutated so far (mutation is in place in the C source, so an
abort keeps the updates already made). -/
def fetchList (readReg : Nat → String → Nat → Option (List Nat))
    (arch : Gdbarch) : List Nat → RegCache → FetchOutcome × RegCache
  | [], cache => (FetchOutcome.completed, cache)
  | r :: rest, cache =>
    if 16 < arch.regSize r then
      (FetchOutcome.configError, cache)
    else
      fetchList readReg arch rest (setReg cache r (suppliedEntry readReg arch r))

/-- The list of register indices a call with argument `regno` iterates
over in the per-task `fetch_registers`: a single register for
`regno >= 0` (the `goto onetime` path, which exits the loop after one
iteration because the loop condition requires `regno == -1`), all of
`0..num_regs-1` for `regno == -1`, and nothing otherwise. -/
def requestedRegs (arch : Gdbarch) (regno : Int) : List Nat :=
  if 0 ≤ regno then [regno.toNat]
  else if regno = -1 then List.range arch.numRegs
  else []

/-- Embedding of the per-task `crash_target::fetch_registers`
(crash_target.c lines 72-97): `regno >= 0` processes exactly that one
register; `regno == -1` loops over all registers; any other negative
value never enters the loop. -/
def fetch_registers_task (readReg : Nat → String → Nat → Option (List Nat))
    (arch : Gdbarch) (regno : Int) (cache : RegCache) :
    FetchOutcome × RegCache :=
  if 0 ≤ regno then
    fetchList readReg arch [regno.toNat] cache
  else if regno = -1 then
    fetchList readReg arch (List.range arch.numRegs) cache
  else
    (FetchOutcome.completed, cache)

/-- Embedding of the per-CPU `crash_target::fetch_registers` (variant
file lines 71-90): the source comment says "We just get all the
registers, so we don't use regno" — the loop unconditionally covers
every register and `regno` is ignored. The read primitive
`crash_get_cpu_reg` additionally takes the cpu slot of the current
inferior thread. -/
def fetch_registers_cpu
    (readCpuReg : Nat → Nat → String → Nat → Option (List Nat))
    (arch : Gdbarch) (cpu : Nat) (regno : Int) (cache : RegCache) :
    FetchOutcome × RegCache :=
  fetchList (readCpuReg cpu) arch (List.range arch.numRegs) cache

/-- The prefix of a requested register list that the fetch loop actually
processes: it stops at (and excludes) the first register whose declared
width exceeds the 16-byte scratch buffer. -/
def processedRegs (arch : Gdbarch) : List Nat → List Nat
  | [] => []
  | r :: rest =>
    if 16 < arch.regSize r then [] else r :: processedRegs arch rest

/-- Whether every register in the list fits the 16-byte scratch buffer. -/
def allFit (arch : Gdbarch) : List Nat → Bool
  | [] => true
  | r :: rest => if 16 < arch.regSize r then false else allFit arch rest

/- ## Memory relay (crash_target::xfer_partial, identical in both variants) -/

/-- The values of `enum target_object` distinguished by the adapter:
the three whitelisted memory kinds and representative other kinds. -/
inductive TargetObject where
  | memory
  | stack_memory
  | code_memory
  | auxv
  | libraries
  | osdata
deriving DecidableEq, Repr

/-- The `enum target_xfer_status` values. -/
inductive XferStatus where
  | ok
  | eof
  | unavailable
  | e_io
deriving DecidableEq, Repr

/-- Observable result of one `xfer_partial` call: the returned status,
the value stored through `*xfered_len` (none when the C code never
writes it), and how many times `gdb_readmem_callback` was invoked. -/
structure XferResult where
  status : XferStatus
  xfered_len : Option Nat
  readmemCalls : Nat
deriving DecidableEq, Repr

/-- Embedding of `crash_target::xfer_partial` (identical in both
variants): objects other than TARGET_OBJECT_MEMORY, _STACK_MEMORY and
_CODE_MEMORY are rejected with TARGET_XFER_E_IO before
`gdb_readmem_callback` is consulted; otherwise the callback is invoked
once with `!readbuf` as the write flag, and on success the full
requested length is reported through `*xfered_len` with TARGET_XFER_OK,
on failure TARGET_XFER_E_IO is returned. `readmem offset len iswrite`
models the callback's success/failure for that request. -/
def xfer_partial (readmem : Nat → Nat → Bool → Bool)
    (object : TargetObject) (readbuf writebuf : Bool)
    (offset len : Nat) : XferResult :=
  if object ≠ TargetObject.memory ∧ object ≠ TargetObject.stack_memory
      ∧ object ≠ TargetObject.code_memory then
    { status := XferStatus.e_io, xfered_len := none, readmemCalls := 0 }
  else if readmem offset len (!readbuf) then
    { status := XferStatus.ok, xfered_len := some len, readmemCalls := 1 }
  else
    { status := XferStatus.e_io, xfered_len := none, readmemCalls := 1 }

/- ## Concrete instances used by counterexamples and witnesses -/

/-- Two-register architecture whose second register (index 1) is wider
than the 16-byte scratch buffer. -/
def archWide1 : Gdbarch :=
  { numRegs := 2, regName := fun _ => "r", regSize := fun r => if r = 0 then 8 else 32 }

/-- Two-register architecture whose first register (index 0) is wider
than the 16-byte scratch buffer while register 1 fits. -/
def archWide0 : Gdbarch :=
  { numRegs := 2, regName := fun _ => "r", regSize := fun r => if r = 0 then 32 else 8 }

/-- Two-register architecture where every register fits the buffer. -/
def archSmall : Gdbarch :=
  { numRegs := 2, regName := fun _ => "r", regSize := fun _ => 8 }

/-- A read primitive that always succeeds with bytes `[1, 2]`. -/
def readerOk : Nat → String → Nat → Option (List Nat) :=
  fun _ _ _ => some [1, 2]

/-- A per-CPU read primitive that always succeeds with bytes `[3]`. -/
def cpuReaderOk : Nat → Nat → String → Nat → Option (List Nat) :=
  fun _ _ _ _ => some [3]

/-- A starting cache with every entry unavailable. -/
def cacheUnavail : RegCache := fun _ => RegEntry.unavailable

/-- A starting cache holding stale bytes `[9, 9]` in every entry. -/
def cacheStale : RegCache := fun _ => RegEntry.present [9, 9]

/- ## Helper lemmas about the fetch loop -/

/-- The fetch loop completes exactly when every requested register fits
the scratch buffer; otherwise it reports the configuration error. -/
theorem fetchList_fst (readReg : Nat → String → Nat → Option (List Nat))
    (arch : Gdbarch) :
    ∀ (rs : List Nat) (cache : RegCache),
      (fetchList readReg arch rs cache).1
        = (if allFit arch rs then FetchOutcome.completed else FetchOutcome.configError)
  | [], _ => rfl
  | r :: rest, cache => by
    unfold fetchList allFit
    split
    · rfl
    · exact fetchList_fst readReg arch rest _

/-- A register index outside the processed prefix keeps its previous
cache entry. -/
theorem fetchList_apply_not_mem (readReg : Nat → String → Nat → Option (List Nat))
    (arch : Gdbarch) :
    ∀ (rs : List Nat) (cache : RegCache) (i : Nat),
      i ∉ processedRegs arch rs → (fetchList readReg arch rs cache).2 i = cache i
  | [], _, _, _ => rfl
  | r :: rest, cache, i, h => by
    unfold fetchList
    unfold processedRegs at h
    split
    · rfl
    · next hsize =>
      rw [if_neg hsize] at h
      simp only [List.mem_cons, not_or] at h
      rw [fetchList_apply_not_mem readReg arch rest _ i h.2]
      unfold setReg
      rw [if_neg h.1]

/-- Membership in the processed prefix implies membership in the
requested list. -/
theorem mem_of_mem_processedRegs (arch : Gdbarch) :
    ∀ (rs : List Nat) (r : Nat), r ∈ processedRegs arch rs → r ∈ rs
  | [], _, h => absurd h (List.not_mem_nil _)
  | q :: rest, r, h => by
    unfold processedRegs at h
    by_cases hsize : 16 < arch.regSize q
    · rw [if_pos hsize] at h
      exact absurd h (List.not_mem_nil r)
    · rw [if_neg hsize] at h
      rcases List.mem_cons.1 h with h | h
      · exact h ▸ List.mem_cons_self q rest
      · exact List.mem_cons_of_mem q (mem_of_mem_processedRegs arch rest r h)

/-- A register inside the processed prefix of a duplicate-free request
list ends up holding exactly the entry supplied from the read
primitive. -/
theorem fetchList_apply_mem (readReg : Nat → String → Nat → Option (List Nat))
    (arch : Gdbarch) :
    ∀ (rs : List Nat) (cache : RegCache) (r : Nat), rs.Nodup →
      r ∈ processedRegs arch rs →
      (fetchList readReg arch rs cache).2 r = suppliedEntry readReg arch r
  | [], _, r, _, h => absurd h (List.not_mem_nil r)
  | q :: rest, cache, r, hnd, h => by
    unfold processedRegs at h
    unfold fetchList
    by_cases hsize : 16 < arch.regSize q
    · rw [if_pos hsize] at h
      exact absurd h (List.not_mem_nil r)
    · rw [if_neg hsize] at h
      rw [if_neg hsize]
      rcases List.mem_cons.1 h with hrq | hmem
      · subst hrq
        have hnotin : r ∉ processedRegs arch rest := fun hc =>
          (List.nodup_cons.1 hnd).1 (mem_of_mem_processedRegs arch rest r hc)
        rw [fetchList_apply_not_mem readReg arch rest _ r hnotin]
        unfold setReg
        rw [if_pos rfl]
      · exact fetchList_apply_mem readReg arch rest _ r (List.nodup_cons.1 hnd).2 hmem

/-- The request list derived from any `regno` argument is
duplicate-free. -/
theorem requestedRegs_nodup (arch : Gdbarch) (regno : Int) :
    (requestedRegs arch regno).Nodup := by
  unfold requestedRegs
  split
  · exact List.nodup_singleton _
  · split
    · exact List.nodup_range _
    · exact List.nodup_nil

/-- The per-task fetch entry point processes exactly the request list
described by `requestedRegs`. -/
theorem fetch_registers_task_eq (readReg : Nat → String → Nat → Option (List Nat))
    (arch : Gdbarch) (regno : Int) (cache : RegCache) :
    fetch_registers_task readReg arch regno cache
      = fetchList readReg arch (requestedRegs arch regno) cache := by
  unfold fetch_registers_task requestedRegs
  split
  · rfl
  · split
    · rfl
    · rfl

/- ## Claim theorems -/

/-- C1 counterexample: after notification(task=5) from the initial state,
the two consecutive notifications task=5, task=5 (calls 2 and 3 of the
sequence 5, 5, 5) carry the identical task handle yet produce zero
register-cache and zero frame-cache invalidations in total, not exactly
one of each: the claimed "exactly one invalidation per consecutive
identical pair" fails whenever the first notification of the pair
already matches the Previous-Context Marker. -/
theorem C1_counterexample :
    ¬ ((runNotifications [5, 5, 5] initialTaskContextState).regcacheInvalidations
          = (runNotifications [5] initialTaskContextState).regcacheInvalidations + 1
       ∧ (runNotifications [5, 5, 5] initialTaskContextState).frameInvalidations
          = (runNotifications [5] initialTaskContextState).frameInvalidations + 1) := by
  decide

/-- C1 amended: two consecutive notifications with the identical task
handle produce at most one register-cache and one frame-cache
invalidation in total — exactly one of each when the handle differs
from the Previous-Context Marker beforehand, zero otherwise; the second
notification always performs no invalidation, changes nothing and
reports success; and for the sequence task=5, task=5, task=7 from the
initial state, invalidation occurs after calls 1 and 3 only and the
marker equals 7 after all three calls. -/
theorem C1_amended (s : TaskContextState) (t : Nat) :
    (gdb_change_thread_context t (gdb_change_thread_context t s).2).1 = true
    ∧ (gdb_change_thread_context t (gdb_change_thread_context t s).2).2
        = (gdb_change_thread_context t s).2
    ∧ (gdb_change_thread_context t (gdb_change_thread_context t s).2).2.regcacheInvalidations
        = s.regcacheInvalidations + (if t = s.prev_task then 0 else 1)
    ∧ (gdb_change_thread_context t (gdb_change_thread_context t s).2).2.frameInvalidations
        = s.frameInvalidations + (if t = s.prev_task then 0 else 1)
    ∧ runNotifications [5] initialTaskContextState
        = { prev_task := 5, regcacheInvalidations := 1, frameInvalidations := 1 }
    ∧ runNotifications [5, 5] initialTaskContextState
        = { prev_task := 5, regcacheInvalidations := 1, frameInvalidations := 1 }
    ∧ runNotifications [5, 5, 7] initialTaskContextState
        = { prev_task := 7, regcacheInvalidations := 2, frameInvalidations := 2 } := by
  by_cases h : t = s.prev_task <;>
    simp [gdb_change_thread_context, runNotifications, initialTaskContextState, h]

/-- C2 counterexample: on a two-register architecture whose register 1
is declared 32 bytes wide (exceeding the 16-byte scratch buffer), a
fetch-all aborts with the configuration error as claimed, but the cache
is not left as it was: register 0 was already supplied before the abort,
so its entry changed. -/
theorem C2_counterexample :
    16 < archWide1.regSize 1
    ∧ (fetch_registers_task readerOk archWide1 (-1) cacheUnavail).1
        = FetchOutcome.configError
    ∧ (fetch_registers_task readerOk archWide1 (-1) cacheUnavail).2 0
        ≠ cacheUnavail 0 := by
  decide

/-- C2 amended: a fetch whose request list contains a register wider
than the 16-byte scratch buffer aborts with the configuration error;
every register outside the processed prefix (the oversized register
itself and everything after it) keeps its previous cache entry, while
registers processed before the oversized one may already have been
updated; in the special case of a single-register fetch of an oversized
register the whole cache is left unchanged. The same holds for the
per-CPU variant, whose request list is always all registers. -/
theorem C2_amended (readReg : Nat → String → Nat → Option (List Nat))
    (arch : Gdbarch) (regno : Int) (cache : RegCache)
    (h : allFit arch (requestedRegs arch regno) = false) :
    (fetch_registers_task readReg arch regno cache).1 = FetchOutcome.configError
    ∧ (∀ i, i ∉ processedRegs arch (requestedRegs arch regno) →
        (fetch_registers_task readReg arch regno cache).2 i = cache i)
    ∧ (∀ r : Nat, regno = (r : Int) → 16 < arch.regSize r →
        fetch_registers_task readReg arch regno cache
          = (FetchOutcome.configError, cache))
    ∧ (∀ readCpuReg cpu, allFit arch (List.range arch.numRegs) = false →
        (fetch_registers_cpu readCpuReg arch cpu regno cache).1
            = FetchOutcome.configError
        ∧ ∀ i, i ∉ processedRegs arch (List.range arch.numRegs) →
            (fetch_registers_cpu readCpuReg arch cpu regno cache).2 i = cache i) := by
  refine ⟨?_, ?_, ?_, ?_⟩
  · rw [fetch_registers_task_eq, fetchList_fst, h]
    rfl
  · intro i hi
    rw [fetch_registers_task_eq]
    exact fetchList_apply_not_mem readReg arch _ cache i hi
  · intro r hr hwide
    subst hr
    unfold fetch_registers_task
    rw [if_pos (Int.natCast_nonneg r)]
    unfold fetchList
    rw [Int.toNat_natCast, if_pos hwide]
  · intro readCpuReg cpu hall
    unfold fetch_registers_cpu
    constructor
    · rw [fetchList_fst, hall]
      rfl
    · intro i hi
      exact fetchList_apply_not_mem (readCpuReg cpu) arch _ cache i hi

/-- C2 witness: concrete run of the amended claim on the two-register
architecture with oversized register 1: the fetch-all aborts with the
configuration error and register 1 (outside the processed prefix) keeps
its previous entry. -/
theorem C2_amended_witness :
    (fetch_registers_task readerOk archWide1 (-1) cacheUnavail).1
        = FetchOutcome.configError
    ∧ (fetch_registers_task readerOk archWide1 (-1) cacheUnavail).2 1
        = cacheUnavail 1 := by
  have h := C2_amended readerOk archWide1 (-1) cacheUnavail (by decide)
  exact ⟨h.1, h.2.1 1 (by decide)⟩

/-- C3: in the per-CPU variant, a notification whose task handle
resolves to a negative CPU index is rejected with FALSE and nothing
changes: no thread record is created, no register fetch occurs, the
active thread is unchanged and the frame cache is not invalidated. -/
theorem C3_reject_negative_resolution (resolve : Nat → Int)
    (addOk : Nat → Bool) (task : Nat) (s : CpuContextState)
    (h : resolve task < 0) :
    gdb_change_thread_context_percpu resolve addOk task s = (false, s) := by
  unfold gdb_change_thread_context_percpu
  simp [h]

/-- C3 witness: a resolution primitive constantly returning -1 makes the
notification fail and leaves the freshly initialized two-CPU state
untouched. -/
theorem C3_witness :
    gdb_change_thread_context_percpu (fun _ => (-1 : Int)) (fun _ => true) 4
        (crash_target_init_percpu 2)
      = (false, crash_target_init_percpu 2) :=
  C3_reject_negative_resolution (fun _ => (-1 : Int)) (fun _ => true) 4
    (crash_target_init_percpu 2) (by decide)

/-- C4: in the per-CPU variant, a notification resolving to a CPU index
with no existing thread record makes exactly one lazy creation attempt.
If creation succeeds the notification is accepted and the record is
appended; every later notification resolving to the same CPU index then
finds the record, makes no further creation attempt and leaves the
thread list unchanged, so a duplicate-free thread list stays
duplicate-free. If creation fails the notification returns failure. -/
theorem C4_lazy_creation (resolve : Nat → Int) (addOk : Nat → Bool)
    (task : Nat) (s : CpuContextState) (c : Nat)
    (hres : resolve task = (c : Int)) (habsent : c ∉ s.threads) :
    ((gdb_change_thread_context_percpu resolve addOk task s).2.addCalls
        = s.addCalls + 1)
    ∧ (addOk c = true →
        gdb_change_thread_context_percpu resolve addOk task s
          = (true, { s with threads := s.threads ++ [c],
                            addCalls := s.addCalls + 1,
                            activeThread := some c,
                            fetchCalls := s.fetchCalls + 1,
                            frameInvalidations := s.frameInvalidations + 1 })
        ∧ (∀ task2, resolve task2 = (c : Int) →
            (gdb_change_thread_context_percpu resolve addOk task2
                (gdb_change_thread_context_percpu resolve addOk task s).2).1 = true
            ∧ (gdb_change_thread_context_percpu resolve addOk task2
                (gdb_change_thread_context_percpu resolve addOk task s).2).2.threads
              = (gdb_change_thread_context_percpu resolve addOk task s).2.threads
            ∧ (gdb_change_thread_context_percpu resolve addOk task2
                (gdb_change_thread_context_percpu resolve addOk task s).2).2.addCalls
              = (gdb_change_thread_context_percpu resolve addOk task s).2.addCalls)
        ∧ (s.threads.Nodup →
            (gdb_change_thread_context_percpu resolve addOk task s).2.threads.Nodup))
    ∧ (addOk c = false →
        gdb_change_thread_context_percpu resolve addOk task s
          = (false, { s with addCalls := s.addCalls + 1 })) := by
  have hnneg : ¬ resolve task < 0 := by
    rw [hres]
    exact not_lt.mpr (Int.natCast_nonneg c)
  have htn : (resolve task).toNat = c := by
    rw [hres]
    exact Int.toNat_natCast c
  by_cases ha : addOk c = true
  · have hstep : gdb_change_thread_context_percpu resolve addOk task s
        = (true, { s with threads := s.threads ++ [c],
                          addCalls := s.addCalls + 1,
                          activeThread := some c,
                          fetchCalls := s.fetchCalls + 1,
                          frameInvalidations := s.frameInvalidations + 1 }) := by
      unfold gdb_change_thread_context_percpu
      simp [hnneg, htn, habsent, ha]
    refine ⟨by rw [hstep], fun _ => ⟨hstep, ?_, ?_⟩,
            fun hf => absurd (ha.symm.trans hf) (by decide)⟩
    · intro task2 hres2
      have hnneg2 : ¬ resolve task2 < 0 := by
        rw [hres2]
        exact not_lt.mpr (Int.natCast_nonneg c)
      have htn2 : (resolve task2).toNat = c := by
        rw [hres2]
        exact Int.toNat_natCast c
      rw [hstep]
      unfold gdb_change_thread_context_percpu
      simp [hnneg2, htn2]
    · intro hnd
      rw [hstep]
      exact hnd.append (List.nodup_singleton c) (List.disjoint_singleton.2 habsent)
  · have ha2 : addOk c = false := by
      cases hv : addOk c
      · rfl
      · exact absurd hv ha
    have hstep : gdb_change_thread_context_percpu resolve addOk task s
        = (false, { s with addCalls := s.addCalls + 1 }) := by
      unfold gdb_change_thread_context_percpu
      simp [hnneg, htn, habsent, ha2]
    exact ⟨by rw [hstep], fun hf => absurd hf ha, fun _ => hstep⟩

/-- C4 witness: from the two-CPU initial state (thread records for CPUs
0 and 1), a notification resolving to CPU 2 with a succeeding creation
primitive makes exactly one creation attempt and is accepted. -/
theorem C4_witness :
    (gdb_change_thread_context_percpu (fun _ => (2 : Int)) (fun _ => true) 11
        (crash_target_init_percpu 2)).2.addCalls
      = (crash_target_init_percpu 2).addCalls + 1
    ∧ (gdb_change_thread_context_percpu (fun _ => (2 : Int)) (fun _ => true) 11
        (crash_target_init_percpu 2)).1 = true := by
  have h := C4_lazy_creation (fun _ => (2 : Int)) (fun _ => true) 11
      (crash_target_init_percpu 2) 2 (by decide) (by decide)
  exact ⟨h.1, by rw [(h.2.1 rfl).1]⟩

/-- C5: a memory-transfer request whose object kind is not main memory,
stack memory or code memory returns the I/O-class failure
TARGET_XFER_E_IO and never invokes `gdb_readmem_callback` (its call
count stays 0); `*xfered_len` is never written. The xfer code is
identical in both variants, so one embedding covers both. -/
theorem C5_disallowed_object_rejected (readmem : Nat → Nat → Bool → Bool)
    (object : TargetObject) (readbuf writebuf : Bool) (offset len : Nat)
    (h : object ≠ TargetObject.memory ∧ object ≠ TargetObject.stack_memory
          ∧ object ≠ TargetObject.code_memory) :
    xfer_partial readmem object readbuf writebuf offset len
      = { status := XferStatus.e_io, xfered_len := none, readmemCalls := 0 } := by
  unfold xfer_partial
  rw [if_pos h]

/-- C5 witness: an auxv-object request is rejected with the I/O failure
and zero callback invocations. -/
theorem C5_witness :
    xfer_partial (fun _ _ _ => true) TargetObject.auxv true false 0x1000 64
      = { status := XferStatus.e_io, xfered_len := none, readmemCalls := 0 } :=
  C5_disallowed_object_rejected (fun _ _ _ => true) TargetObject.auxv true false
    0x1000 64 (by decide)

/-- C6: a memory-transfer request with an allowed object kind invokes
the callback once; when the callback reports success the transfer
returns TARGET_XFER_OK and reports the full requested length through
`*xfered_len`; when it reports failure the transfer returns
TARGET_XFER_E_IO. Identical in both variants. -/
theorem C6_allowed_object_forwarded (readmem : Nat → Nat → Bool → Bool)
    (object : TargetObject) (readbuf writebuf : Bool) (offset len : Nat)
    (hobj : object = TargetObject.memory ∨ object = TargetObject.stack_memory
            ∨ object = TargetObject.code_memory) :
    (readmem offset len (!readbuf) = true →
       xfer_partial readmem object readbuf writebuf offset len
         = { status := XferStatus.ok, xfered_len := some len, readmemCalls := 1 })
    ∧ (readmem offset len (!readbuf) = false →
       xfer_partial readmem object readbuf writebuf offset len
         = { status := XferStatus.e_io, xfered_len := none, readmemCalls := 1 }) := by
  have hcond : ¬ (object ≠ TargetObject.memory ∧ object ≠ TargetObject.stack_memory
      ∧ object ≠ TargetObject.code_memory) := by
    rcases hobj with h | h | h <;> simp [h]
  constructor <;> intro hr <;> unfold xfer_partial <;> rw [if_neg hcond] <;> simp [hr]

/-- C6 witness (Scenario C): a 64-byte stack-memory read at offset
0x1000 with a succeeding callback returns TARGET_XFER_OK and reports
exactly 64 bytes transferred. -/
theorem C6_witness :
    xfer_partial (fun _ _ _ => true) TargetObject.stack_memory true false 0x1000 64
      = { status := XferStatus.ok, xfered_len := some 64, readmemCalls := 1 } := by
  have h := C6_allowed_object_forwarded (fun _ _ _ => true) TargetObject.stack_memory
      true false 0x1000 64 (Or.inr (Or.inl rfl))
  exact h.1 rfl

/-- C7 counterexample: on a two-register architecture whose register 0
is oversized (32 bytes) while register 1 fits (8 bytes), a fetch-all —
which requests register 1 — aborts at register 0 and leaves register 1
holding its stale previous bytes `[9, 9]`: neither the bytes the read
primitive would return (`[1, 2]`) nor the unavailable marker, i.e. the
forbidden third state. -/
theorem C7_counterexample :
    archWide0.regSize 1 ≤ 16
    ∧ readerOk 1 (archWide0.regName 1) (archWide0.regSize 1) = some [1, 2]
    ∧ (fetch_registers_task readerOk archWide0 (-1) cacheStale).2 1
        ≠ RegEntry.unavailable
    ∧ (fetch_registers_task readerOk archWide0 (-1) cacheStale).2 1
        ≠ RegEntry.present [1, 2] := by
  decide

/-- C7 amended: for every register r inside the processed prefix of the
request list (in particular r itself fits the 16-byte buffer and no
earlier requested register is oversized), the fetch leaves r's entry
exactly as supplied from the read primitive: present with the
primitive's bytes on success, unavailable on failure — never a stale or
zero-filled third state. Registers the fetch aborts before reaching may
instead keep their old entry. Holds for both variants. -/
theorem C7_amended (readReg : Nat → String → Nat → Option (List Nat))
    (arch : Gdbarch) (regno : Int) (cache : RegCache) (r : Nat)
    (h : r ∈ processedRegs arch (requestedRegs arch regno)) :
    (fetch_registers_task readReg arch regno cache).2 r
        = suppliedEntry readReg arch r
    ∧ (∀ readCpuReg cpu, r ∈ processedRegs arch (List.range arch.numRegs) →
        (fetch_registers_cpu readCpuReg arch cpu regno cache).2 r
          = suppliedEntry (readCpuReg cpu) arch r) := by
  constructor
  · rw [fetch_registers_task_eq]
    exact fetchList_apply_mem readReg arch _ cache r (requestedRegs_nodup arch regno) h
  · intro readCpuReg cpu hc
    unfold fetch_registers_cpu
    exact fetchList_apply_mem (readCpuReg cpu) arch _ cache r (List.nodup_range _) hc

/-- C7 witness: on the all-small architecture, a single-register fetch
of register 0 (per-task) and a fetch on CPU 1 (per-CPU) both leave
register 0 exactly as supplied by the read primitive. -/
theorem C7_amended_witness :
    (fetch_registers_task readerOk archSmall 0 cacheStale).2 0
        = suppliedEntry readerOk archSmall 0
    ∧ (fetch_registers_cpu cpuReaderOk archSmall 1 0 cacheStale).2 0
        = suppliedEntry (cpuReaderOk 1) archSmall 0 := by
  have h := C7_amended readerOk archSmall 0 cacheStale 0 (by decide)
  exact ⟨h.1, h.2 cpuReaderOk 1 (by decide)⟩

/-- C8 counterexample: in the per-CPU variant a fetch called with the
nonnegative single register index 0 nevertheless modifies register 1's
cache entry, because that variant ignores `regno` and always fetches
every register. -/
theorem C8_counterexample :
    (0 : Int) ≥ 0
    ∧ (fetch_registers_cpu cpuReaderOk archSmall 0 0 cacheUnavail).2 1
        ≠ cacheUnavail 1 := by
  decide

/-- C8 amended: in the per-task variant a call with nonnegative register
index r populates exactly register r (from the read primitive, when r
fits the buffer) and leaves every other register's entry untouched,
with -1 meaning all registers; the per-CPU variant instead ignores the
index entirely — a call with any index behaves exactly like a fetch-all. -/
theorem C8_amended (readReg : Nat → String → Nat → Option (List Nat))
    (arch : Gdbarch) (regno : Int) (cache : RegCache) (r : Nat)
    (hr : regno = (r : Int)) :
    (arch.regSize r ≤ 16 →
       (fetch_registers_task readReg arch regno cache).2 r
         = suppliedEntry readReg arch r)
    ∧ (∀ i, i ≠ r → (fetch_registers_task readReg arch regno cache).2 i = cache i)
    ∧ (∀ readCpuReg cpu,
        fetch_registers_cpu readCpuReg arch cpu regno cache
          = fetch_registers_cpu readCpuReg arch cpu (-1) cache) := by
  subst hr
  have hreq : requestedRegs arch (r : Int) = [r] := by
    unfold requestedRegs
    rw [if_pos (Int.natCast_nonneg r), Int.toNat_natCast]
  refine ⟨?_, ?_, fun _ _ => rfl⟩
  · intro hfit
    have hmem : r ∈ processedRegs arch (requestedRegs arch (r : Int)) := by
      rw [hreq]
      unfold processedRegs
      rw [if_neg (not_lt.mpr hfit)]
      exact List.mem_cons_self r _
    rw [fetch_registers_task_eq]
    exact fetchList_apply_mem readReg arch _ cache r
      (requestedRegs_nodup arch (r : Int)) hmem
  · intro i hi
    rw [fetch_registers_task_eq]
    refine fetchList_apply_not_mem readReg arch _ cache i (fun hc => hi ?_)
    have := mem_of_mem_processedRegs arch _ i hc
    rw [hreq] at this
    exact List.mem_singleton.1 this

/-- C8 witness: per-task single-register fetch of register 0 on the
all-small architecture populates register 0 from the primitive and
leaves register 1 untouched; the per-CPU variant treats index 0 exactly
like a fetch-all. -/
theorem C8_amended_witness :
    (fetch_registers_task readerOk archSmall 0 cacheUnavail).2 0
        = suppliedEntry readerOk archSmall 0
    ∧ (fetch_registers_task readerOk archSmall 0 cacheUnavail).2 1 = cacheUnavail 1
    ∧ fetch_registers_cpu cpuReaderOk archSmall 0 0 cacheUnavail
        = fetch_registers_cpu cpuReaderOk archSmall 0 (-1) cacheUnavail := by
  have h := C8_amended readerOk archSmall 0 cacheUnavail 0 (by decide)
  exact ⟨h.1 (by decide), h.2.1 1 (by decide), h.2.2 cpuReaderOk 0⟩

/-- C9: the per-task context-change notification reports success (TRUE)
for every task handle and every state — both branches of the C function
return TRUE, so there is no failure path — whereas the per-CPU variant
can reject a notification (here: one whose handle resolves to a negative
CPU index). -/
theorem C9_per_task_always_success (task : Nat) (s : TaskContextState) :
    (gdb_change_thread_context task s).1 = true
    ∧ (gdb_change_thread_context_percpu (fun _ => (-1 : Int)) (fun _ => true) task
        (crash_target_init_percpu 1)).1 = false := by
  constructor
  · unfold gdb_change_thread_context
    split <;> rfl
  · rfl

/-- C10: the Previous-Context Marker's sentinel "none" value is the
integer 0, so a first notification carrying task handle 0 is treated as
identical to the initial state: it reports success, performs no
register-cache or frame-cache invalidation, and leaves the marker at 0. -/
theorem C10_sentinel_is_zero :
    initialTaskContextState.prev_task = 0
    ∧ gdb_change_thread_context 0 initialTaskContextState
        = (true, initialTaskContextState)
    ∧ (gdb_change_thread_context 0 initialTaskContextState).2.regcacheInvalidations = 0
    ∧ (gdb_change_thread_context 0 initialTaskContextState).2.frameInvalidations = 0
    ∧ (gdb_change_thread_context 0 initialTaskContextState).2.prev_task = 0 := by
  decide
